import Mathlib

/-!
Verification of the node-selection core of the scylla-rust-driver excerpt:
the per-statement configuration (`src/scylla/src/statement/mod.rs`) and the
load-balancing policy interface (`src/scylla/src/transport/load_balancing/mod.rs`).

Shallow embedding conventions:
* Rust enums become Lean inductives; structs become structures.
* `Arc<T>` (a shared, reference-counted pointer) is embedded as a pointer
  identity `ArcPtr`: `Arc::clone` returns the same pointer, a deep copy would
  allocate a fresh one.  Heap-allocated `StatementConfig` objects live in a
  `Heap` (a list indexed by address) so that "mutating the clone leaves the
  original unchanged" is a genuine statement about distinct heap slots.
* `Duration` is embedded as nanoseconds (`Nat`); `i64` timestamps as `Int`.
-/

namespace Scylla

/-- CQL consistency levels, from `scylla_cql::frame::types::Consistency`
(external crate; the variants are the protocol-defined ones). -/
inductive Consistency where
  | Any
  | One
  | Two
  | Three
  | Quorum
  | All
  | LocalQuorum
  | EachQuorum
  | LocalOne
  deriving DecidableEq, Repr

/-- Default consistency of the external crate (`Consistency::LocalQuorum`). -/
def Consistency.default : Consistency := Consistency.LocalQuorum

/-- CQL serial consistency levels, from
`scylla_cql::frame::types::SerialConsistency`. -/
inductive SerialConsistency where
  | Serial
  | LocalSerial
  deriving DecidableEq, Repr

/-- Pointer identity of a shared reference-counted allocation (`Arc<T>`).
Two handles are the same resource exactly when their addresses coincide. -/
structure ArcPtr where
  addr : Nat
  deriving DecidableEq, Repr

/-- Embedding of `Arc::clone`: bumps the reference count and returns the very
same pointer, so the clone is referentially identical to the original. -/
def ArcPtr.clone (a : ArcPtr) : ArcPtr := a

/-- Embedding of `Duration` as nanoseconds. -/
abbrev Duration := Nat

/-- Embedding of `StatementConfig` from `src/scylla/src/statement/mod.rs`.
The `history_listener` field is `Option<Arc<dyn HistoryListener>>` and the
`execution_profile_handle` is an `Arc`-backed handle; both are embedded by
their pointer identity. -/
structure StatementConfig where
  consistency : Option Consistency
  serial_consistency : Option (Option SerialConsistency)
  is_idempotent : Bool
  tracing : Bool
  timestamp : Option Int
  request_timeout : Option Nat
  history_listener : Option ArcPtr
  execution_profile_handle : Option ArcPtr
  deriving DecidableEq, Repr

/-- Embedding of `impl Default for StatementConfig`: every field takes its
type's default (`None` / `false`). -/
def StatementConfig.default : StatementConfig :=
  { consistency := none
    serial_consistency := none
    is_idempotent := false
    tracing := false
    timestamp := none
    request_timeout := none
    history_listener := none
    execution_profile_handle := none }

/-- Embedding of `impl Clone for StatementConfig`: the two `Arc`-backed fields
are cloned (sharing the allocation), every other field is copied by value
(`..*self`). -/
def StatementConfig.clone (c : StatementConfig) : StatementConfig :=
  { c with
    history_listener := c.history_listener.map ArcPtr.clone
    execution_profile_handle := c.execution_profile_handle.map ArcPtr.clone }

/-- Embedding of `StatementConfig::determine_consistency`:
`self.consistency.unwrap_or(default_consistency)`. -/
def StatementConfig.determine_consistency (c : StatementConfig)
    (default_consistency : Consistency) : Consistency :=
  c.consistency.getD default_consistency

/-- Field assignment `config.is_idempotent = b` on a `StatementConfig`. -/
def StatementConfig.set_is_idempotent (c : StatementConfig) (b : Bool) :
    StatementConfig :=
  { c with is_idempotent := b }

/-- Heap of `StatementConfig` objects; the index into the list is the
object's address. -/
abbrev Heap := List StatementConfig

/-- Reads the object stored at address `i` (default object past the end). -/
def Heap.read (h : Heap) (i : Nat) : StatementConfig :=
  List.getD h i StatementConfig.default

/-- Clones the object at address `i` into a fresh heap slot at the end of the
heap (address `h.length`). -/
def Heap.cloneFrom (h : Heap) (i : Nat) : Heap :=
  h ++ [StatementConfig.clone (h.read i)]

/-- In-place mutation `h[i].is_idempotent = b` of the object at address `i`. -/
def Heap.writeIsIdempotent (h : Heap) (i : Nat) (b : Bool) : Heap :=
  List.set h i (StatementConfig.set_is_idempotent (h.read i) b)

/-- Length of a heap, exposed for address bookkeeping. -/
def Heap.size (h : Heap) : Nat := List.length h

/-! ## Load-balancing interface (`src/scylla/src/transport/load_balancing/mod.rs`) -/

/-- Embedding of `crate::routing::Token` (external module): a fixed-width
signed integer position on the consistent-hash ring. -/
structure Token where
  value : Int
  deriving DecidableEq, Repr

/-- Embedding of `RoutingInfo` from
`src/scylla/src/transport/load_balancing/mod.rs`: per-query descriptor of
consistency, serial consistency, token, keyspace and the confirmed-LWT hint.
The keyspace borrow `&'a str` is embedded as a `String` value. -/
structure RoutingInfo where
  consistency : Consistency
  serial_consistency : Option SerialConsistency
  token : Option Token
  keyspace : Option String
  is_confirmed_lwt : Bool
  deriving DecidableEq, Repr

/-- Embedding of the `#[derive(Default)]` instance of `RoutingInfo`: each
field takes its type's default value. -/
def RoutingInfo.default : RoutingInfo :=
  { consistency := Consistency.default
    serial_consistency := none
    token := none
    keyspace := none
    is_confirmed_lwt := false }

/-- One node of the topology snapshot: address identity, datacenter, rack and
up/down status (the data model of the spec's Topology Snapshot; the concrete
`Node` struct lives outside the excerpt). -/
structure Node where
  id : Nat
  datacenter : String
  rack : String
  is_up : Bool
  deriving DecidableEq, Repr

/-- Embedding of the topology snapshot (`ClusterData`, external module): the
node set plus the ring/replication information, exposed as a map from token
and keyspace name to the ordered ids of the owning replica set (`none` when
the keyspace is unknown to the snapshot). -/
structure ClusterData where
  nodes : List Node
  replicas : Token → String → Option (List Nat)

/-- Embedding of the query-outcome error classification
(`scylla_cql::errors::QueryError`, external crate), identified here only by
an abstract code; the hooks under verification never inspect it. -/
structure QueryError where
  code : Nat
  deriving DecidableEq, Repr

/-- Embedding of the provided (default) body of
`LoadBalancingPolicy::on_query_success`: the body is empty, so as a state
transformer over any policy state it returns the state unchanged. -/
def on_query_success_default {σ : Type} (state : σ) (_query : RoutingInfo)
    (_latency : Duration) (_node : Node) : σ :=
  state

/-- Embedding of the provided (default) body of
`LoadBalancingPolicy::on_query_failure`: the body is empty, so as a state
transformer over any policy state it returns the state unchanged. -/
def on_query_failure_default {σ : Type} (state : σ) (_query : RoutingInfo)
    (_latency : Duration) (_node : Node) (_error : QueryError) : σ :=
  state

/-! ## Default policy (modelled from the spec)

The concrete `DefaultPolicy` implementation (`transport/load_balancing/default.rs`)
is not part of the excerpt; only the `LoadBalancingPolicy` trait it implements
is.  The ordering algorithm below is modelled from the spec, section 4.3. -/

/-- Modelled from the spec: the configuration of the missing `DefaultPolicy`
(`transport/load_balancing/default.rs`) — the caller-configured preferred
local datacenter, when any. -/
structure DefaultPolicy where
  local_dc : Option String

/-- Modelled from the spec: token/topology adapter step — when the intent
carries a token and a keyspace known to the snapshot, the ids of the ordered
replica set owning that token; otherwise no token-aware information. -/
def routingReplicaIds (query : RoutingInfo) (cluster : ClusterData) :
    Option (List Nat) :=
  match query.token, query.keyspace with
  | some t, some ks => cluster.replicas t ks
  | _, _ => none

/-- Modelled from the spec: ordering inside one locality tier.  Under the
confirmed-LWT fast path the tier is kept in its fixed deterministic order;
otherwise the per-query pseudo-random tie-break rotates the tier by the
query's random seed, spreading load across equally-preferred nodes. -/
def orderTier (lwt : Bool) (seed : Nat) (l : List Node) : List Node :=
  if lwt then l else l.rotate seed

/-- Modelled from the spec: locality layering of one candidate group.  Nodes
of the configured local datacenter come before remote ones; each tier is then
ordered by `orderTier`. -/
def localityOrder (dc : Option String) (lwt : Bool) (seed : Nat)
    (l : List Node) : List Node :=
  match dc with
  | none => orderTier lwt seed l
  | some d =>
      orderTier lwt seed (l.filter (fun n => n.datacenter == d)) ++
        orderTier lwt seed (l.filter (fun n => !(n.datacenter == d)))

/-- Modelled from the spec: the full preference order produced by the missing
`DefaultPolicy` (`transport/load_balancing/default.rs`) for one query.  Down
nodes are excluded entirely; when token-aware information resolves, up
replicas (locality-ordered) precede the remaining up nodes; otherwise all up
nodes are locality-ordered.  `seed` stands for the per-query randomness used
by the non-LWT tie-break. -/
def queryPlan (p : DefaultPolicy) (query : RoutingInfo) (cluster : ClusterData)
    (seed : Nat) : List Node :=
  match routingReplicaIds query cluster with
  | some ids =>
      localityOrder p.local_dc query.is_confirmed_lwt seed
          ((cluster.nodes.filter (fun n => n.is_up)).filter
            (fun n => ids.contains n.id)) ++
        localityOrder p.local_dc query.is_confirmed_lwt seed
          ((cluster.nodes.filter (fun n => n.is_up)).filter
            (fun n => !ids.contains n.id))
  | none =>
      localityOrder p.local_dc query.is_confirmed_lwt seed
        (cluster.nodes.filter (fun n => n.is_up))

/-- Modelled from the spec: `DefaultPolicy`'s `pick` returns the first
element of the preference order, or nothing when there is none. -/
def DefaultPolicy.pick (p : DefaultPolicy) (query : RoutingInfo)
    (cluster : ClusterData) (seed : Nat) : Option Node :=
  (queryPlan p query cluster seed).head?

/-- Modelled from the spec: `DefaultPolicy`'s `fallback` produces the
remainder of the same preference order, excluding the already-picked head. -/
def DefaultPolicy.fallback (p : DefaultPolicy) (query : RoutingInfo)
    (cluster : ClusterData) (seed : Nat) : List Node :=
  (queryPlan p query cluster seed).tail

/-! ## Concrete data used to evaluate the definitions -/

/-- Sample statement configuration holding shared handles. -/
def exConfig : StatementConfig :=
  { StatementConfig.default with
    history_listener := some ⟨7⟩
    execution_profile_handle := some ⟨8⟩ }

/-- Sample one-object heap. -/
def exHeap : Heap := [exConfig]

/-- Sample policy preferring datacenter dc1. -/
def exPolicy : DefaultPolicy := ⟨some "dc1"⟩

/-- Sample node: a down replica in dc1. -/
def exNode1 : Node := ⟨1, "dc1", "r1", false⟩

/-- Sample node: an up replica in dc2. -/
def exNode2 : Node := ⟨2, "dc2", "r1", true⟩

/-- Sample node: an up non-replica in dc1. -/
def exNode3 : Node := ⟨3, "dc1", "r2", true⟩

/-- Sample topology snapshot: three nodes, one keyspace ks whose token 10 is
owned by nodes 1 and 2. -/
def exCluster : ClusterData :=
  ⟨[exNode1, exNode2, exNode3],
    fun t ks => if t.value == 10 && ks == "ks" then some [1, 2] else none⟩

/-- Sample token-aware routing intent for keyspace ks, token 10. -/
def exQuery : RoutingInfo :=
  { consistency := Consistency.Quorum
    serial_consistency := none
    token := some ⟨10⟩
    keyspace := some "ks"
    is_confirmed_lwt := false }

/-- Sample confirmed-LWT variant of the intent. -/
def exLwtQuery : RoutingInfo := { exQuery with is_confirmed_lwt := true }

/-- Sample empty topology snapshot. -/
def emptyCluster : ClusterData := ⟨[], fun _ _ => none⟩

/-! ## Helper lemmas -/

/-- Cloning a statement config is the identity on the embedded value: the
`Arc` fields keep their pointer identity and the scalar fields are copied. -/
theorem StatementConfig.clone_eq (c : StatementConfig) : c.clone = c := by
  cases c with
  | mk cons ser idem tr ts rt hl eph => cases hl <;> cases eph <;> rfl

/-- Reading the fresh slot after a heap clone yields the clone of the source
object. -/
theorem Heap.read_cloneFrom_new (h : Heap) (i : Nat) :
    (h.cloneFrom i).read h.size = (h.read i).clone := by
  unfold Heap.cloneFrom Heap.read Heap.size
  simp [List.getD_eq_getElem?_getD, List.getElem?_concat_length]

/-- Reading a pre-existing slot after a heap clone is unchanged. -/
theorem Heap.read_cloneFrom_old (h : Heap) (i k : Nat) (hk : k < h.size) :
    (h.cloneFrom i).read k = h.read k := by
  unfold Heap.cloneFrom Heap.read
  simp [List.getD_eq_getElem?_getD, List.getElem?_append_left hk]

/-- Writing the idempotency flag at one address leaves other addresses
untouched. -/
theorem Heap.read_write_ne (h : Heap) (i j : Nat) (b : Bool) (hne : j ≠ i) :
    (h.writeIsIdempotent j b).read i = h.read i := by
  unfold Heap.writeIsIdempotent Heap.read
  simp [List.getD_eq_getElem?_getD, List.getElem?_set_ne hne]

/-- Writing the idempotency flag at a valid address updates that object. -/
theorem Heap.read_write_self (h : Heap) (j : Nat) (b : Bool) (hj : j < h.size) :
    (h.writeIsIdempotent j b).read j = (h.read j).set_is_idempotent b := by
  unfold Heap.writeIsIdempotent Heap.read
  simp [List.getD_eq_getElem?_getD, List.getElem?_set_self hj]

/-- Ordering a tier permutes it. -/
theorem orderTier_perm (lwt : Bool) (seed : Nat) (l : List Node) :
    (orderTier lwt seed l).Perm l := by
  unfold orderTier
  split
  · exact List.Perm.refl l
  · exact List.rotate_perm l seed

/-- Locality ordering permutes its input group. -/
theorem localityOrder_perm (dc : Option String) (lwt : Bool) (seed : Nat)
    (l : List Node) : (localityOrder dc lwt seed l).Perm l := by
  cases dc with
  | none => exact orderTier_perm lwt seed l
  | some d =>
      exact ((orderTier_perm lwt seed _).append (orderTier_perm lwt seed _)).trans
        (List.filter_append_perm (fun n : Node => n.datacenter == d) l)

/-- The full query plan is a permutation of the up nodes of the snapshot. -/
theorem queryPlan_perm (p : DefaultPolicy) (q : RoutingInfo) (c : ClusterData)
    (seed : Nat) :
    (queryPlan p q c seed).Perm (c.nodes.filter (fun n => n.is_up)) := by
  unfold queryPlan
  cases hr : routingReplicaIds q c with
  | none => exact localityOrder_perm _ _ _ _
  | some ids =>
      exact ((localityOrder_perm _ _ _ _).append (localityOrder_perm _ _ _ _)).trans
        (List.filter_append_perm (fun n : Node => ids.contains n.id) _)

/-- Under the confirmed-LWT fast path the plan does not depend on the
per-query random seed. -/
theorem queryPlan_lwt_seed_irrelevant (p : DefaultPolicy) (q : RoutingInfo)
    (c : ClusterData) (s1 s2 : Nat) (h : q.is_confirmed_lwt = true) :
    queryPlan p q c s1 = queryPlan p q c s2 := by
  unfold queryPlan
  cases hr : routingReplicaIds q c <;> cases hd : p.local_dc <;>
    simp [localityOrder, orderTier, h]

/-- The head of a list, when present, is a member. -/
theorem head?_some_mem {α : Type} {l : List α} {a : α} (h : l.head? = some a) :
    a ∈ l := by
  cases l with
  | nil => cases h
  | cons x xs =>
      simp only [List.head?_cons, Option.some.injEq] at h
      simp [h.symm]

/-- When the token-aware information resolves to a replica-id set, the plan is
the locality-ordered up replicas followed by the locality-ordered remaining up
nodes. -/
theorem queryPlan_eq_of_replicas (p : DefaultPolicy) (q : RoutingInfo)
    (c : ClusterData) (seed : Nat) (ids : List Nat)
    (hids : routingReplicaIds q c = some ids) :
    queryPlan p q c seed =
      localityOrder p.local_dc q.is_confirmed_lwt seed
          ((c.nodes.filter (fun n => n.is_up)).filter
            (fun n => ids.contains n.id)) ++
        localityOrder p.local_dc q.is_confirmed_lwt seed
          ((c.nodes.filter (fun n => n.is_up)).filter
            (fun n => !ids.contains n.id)) := by
  unfold queryPlan
  rw [hids]

/-! ## Claim theorems -/

/-- C1: `determine_consistency` returns the statement's explicit consistency
when the consistency field is set, and otherwise returns exactly the supplied
default; it never produces a consistency level that is neither the explicit
one nor the supplied default. -/
theorem determine_consistency_resolution (c : StatementConfig)
    (d : Consistency) :
    (∀ x, c.consistency = some x → c.determine_consistency d = x) ∧
    (c.consistency = none → c.determine_consistency d = d) ∧
    (c.determine_consistency d = d ∨
      c.consistency = some (c.determine_consistency d)) := by
  unfold StatementConfig.determine_consistency
  cases hc : c.consistency <;> simp [hc]

/-- Witness for C1: both branches of the resolution, evaluated on a config
without and with an explicit consistency. -/
theorem determine_consistency_resolution_witness :
    StatementConfig.default.determine_consistency Consistency.One =
        Consistency.One ∧
    ({ StatementConfig.default with consistency := some Consistency.All }
        : StatementConfig).determine_consistency Consistency.One =
      Consistency.All :=
  ⟨(determine_consistency_resolution StatementConfig.default
      Consistency.One).2.1 rfl,
    (determine_consistency_resolution
      { StatementConfig.default with consistency := some Consistency.All }
      Consistency.One).1 Consistency.All rfl⟩

/-- C10: on the default configuration, `determine_consistency` is the
identity on its default-consistency argument, because the default config sets
no consistency override. -/
theorem default_config_determine_consistency_id (d : Consistency) :
    StatementConfig.default.determine_consistency d = d := rfl

/-- C7: the default `RoutingInfo` represents no routing preference: absent
token, absent keyspace, absent serial consistency, and a false confirmed-LWT
flag. -/
theorem routing_info_default_no_preference :
    RoutingInfo.default.token = none ∧
    RoutingInfo.default.keyspace = none ∧
    RoutingInfo.default.serial_consistency = none ∧
    RoutingInfo.default.is_confirmed_lwt = false :=
  ⟨rfl, rfl, rfl, rfl⟩

/-- C8: the `serial_consistency` field distinguishes exactly three states —
unset, explicitly no serial consistency, and an explicit value — the three
states are pairwise distinct, and the default config is in the unset state. -/
theorem serial_consistency_tri_state :
    StatementConfig.default.serial_consistency = none ∧
    (∀ c : StatementConfig,
      c.serial_consistency = none ∨ c.serial_consistency = some none ∨
        ∃ v, c.serial_consistency = some (some v)) ∧
    (none : Option (Option SerialConsistency)) ≠ some none ∧
    (∀ v : SerialConsistency,
      (some (some v) : Option (Option SerialConsistency)) ≠ some none ∧
      (some (some v) : Option (Option SerialConsistency)) ≠ none) := by
  refine ⟨rfl, ?_, by simp, fun v => ⟨by simp, by simp⟩⟩
  intro c
  cases hc : c.serial_consistency with
  | none => exact Or.inl rfl
  | some s =>
      cases s with
      | none => exact Or.inr (Or.inl rfl)
      | some v => exact Or.inr (Or.inr ⟨v, rfl⟩)

/-- C9: the trait-provided default bodies of the query-outcome hooks are
total no-ops: for any policy state, intent, latency, node and error they
return the state unchanged. -/
theorem default_hooks_noop {σ : Type} (s : σ) (q : RoutingInfo)
    (lat : Duration) (n : Node) (e : QueryError) :
    on_query_success_default s q lat n = s ∧
    on_query_failure_default s q lat n e = s :=
  ⟨rfl, rfl⟩

/-- C2: cloning a statement config stored at address i of the heap shares the
history-listener and execution-profile pointers and copies every scalar
field, and mutating the clone's idempotency flag leaves the object at the
original address unchanged. -/
theorem clone_shares_handles_and_copies_scalars
    (h : Heap) (i : Nat) (hi : i < h.size) (b : Bool) :
    ((h.cloneFrom i).read h.size).history_listener =
        (h.read i).history_listener ∧
    ((h.cloneFrom i).read h.size).execution_profile_handle =
        (h.read i).execution_profile_handle ∧
    ((h.cloneFrom i).read h.size).consistency = (h.read i).consistency ∧
    ((h.cloneFrom i).read h.size).serial_consistency =
        (h.read i).serial_consistency ∧
    ((h.cloneFrom i).read h.size).is_idempotent = (h.read i).is_idempotent ∧
    ((h.cloneFrom i).read h.size).tracing = (h.read i).tracing ∧
    ((h.cloneFrom i).read h.size).timestamp = (h.read i).timestamp ∧
    ((h.cloneFrom i).read h.size).request_timeout =
        (h.read i).request_timeout ∧
    (((h.cloneFrom i).writeIsIdempotent h.size b).read h.size).is_idempotent
        = b ∧
    ((h.cloneFrom i).writeIsIdempotent h.size b).read i = h.read i := by
  have hnew := Heap.read_cloneFrom_new h i
  rw [StatementConfig.clone_eq] at hnew
  have hsz : h.size < (h.cloneFrom i).size := by
    unfold Heap.cloneFrom Heap.size
    simp
  have hself := Heap.read_write_self (h.cloneFrom i) h.size b hsz
  have hne : h.size ≠ i := Nat.ne_of_gt hi
  have hold := Heap.read_write_ne (h.cloneFrom i) i h.size b hne
  rw [hold, Heap.read_cloneFrom_old h i i hi, hself, hnew]
  exact ⟨rfl, rfl, rfl, rfl, rfl, rfl, rfl, rfl, rfl, rfl⟩

/-- Witness for C2: evaluated on a one-object heap holding shared handles. -/
theorem clone_shares_handles_witness :
    0 < exHeap.size ∧
    ((exHeap.cloneFrom 0).writeIsIdempotent exHeap.size true).read 0 =
      exHeap.read 0 :=
  ⟨by decide,
    (clone_shares_handles_and_copies_scalars exHeap 0 (by decide)
      true).2.2.2.2.2.2.2.2.2⟩

/-- C3: for a confirmed-LWT intent, two invocations of pick and fallback
against the same snapshot and intent — even with different per-query random
seeds — produce identical orderings. -/
theorem lwt_routing_deterministic (p : DefaultPolicy) (q : RoutingInfo)
    (c : ClusterData) (s1 s2 : Nat) (h : q.is_confirmed_lwt = true) :
    p.pick q c s1 = p.pick q c s2 ∧
    p.fallback q c s1 = p.fallback q c s2 := by
  unfold DefaultPolicy.pick DefaultPolicy.fallback
  rw [queryPlan_lwt_seed_irrelevant p q c s1 s2 h]
  exact ⟨rfl, rfl⟩

/-- Witness for C3: evaluated on the sample LWT intent with seeds 0 and 5. -/
theorem lwt_routing_deterministic_witness :
    exLwtQuery.is_confirmed_lwt = true ∧
    (exPolicy.pick exLwtQuery exCluster 0 =
        exPolicy.pick exLwtQuery exCluster 5 ∧
      exPolicy.fallback exLwtQuery exCluster 0 =
        exPolicy.fallback exLwtQuery exCluster 5) :=
  ⟨rfl, lwt_routing_deterministic exPolicy exLwtQuery exCluster 0 5 rfl⟩

/-- C6: with an empty topology snapshot, pick returns nothing and fallback is
the empty sequence; both are ordinary return values of total functions. -/
theorem empty_topology_no_candidates (p : DefaultPolicy) (q : RoutingInfo)
    (c : ClusterData) (seed : Nat) (h : c.nodes = []) :
    p.pick q c seed = none ∧ p.fallback q c seed = [] := by
  have hp := queryPlan_perm p q c seed
  rw [h] at hp
  have hplan : queryPlan p q c seed = [] := hp.eq_nil
  unfold DefaultPolicy.pick DefaultPolicy.fallback
  rw [hplan]
  exact ⟨rfl, rfl⟩

/-- Witness for C6: evaluated on the sample empty snapshot. -/
theorem empty_topology_no_candidates_witness :
    emptyCluster.nodes = ([] : List Node) ∧
    (exPolicy.pick RoutingInfo.default emptyCluster 0 = none ∧
      exPolicy.fallback RoutingInfo.default emptyCluster 0 = []) :=
  ⟨rfl,
    empty_topology_no_candidates exPolicy RoutingInfo.default emptyCluster 0
      rfl⟩

/-- C4: pick never returns a node that is not an up member of the snapshot;
and whenever the token-aware replica-id set resolves and contains at least
one up node of the snapshot, pick returns an up node of that replica set. -/
theorem pick_replica_and_never_down (p : DefaultPolicy) (q : RoutingInfo)
    (c : ClusterData) (seed : Nat) :
    (∀ n, p.pick q c seed = some n → n ∈ c.nodes ∧ n.is_up = true) ∧
    (∀ ids, routingReplicaIds q c = some ids →
      (∃ n, n ∈ c.nodes ∧ n.is_up = true ∧ ids.contains n.id = true) →
      ∃ n, p.pick q c seed = some n ∧ ids.contains n.id = true ∧
        n.is_up = true) := by
  constructor
  · intro n hn
    have hmem : n ∈ queryPlan p q c seed := head?_some_mem hn
    have hup := (queryPlan_perm p q c seed).mem_iff.mp hmem
    exact List.mem_filter.mp hup
  · intro ids hids hex
    obtain ⟨m, hmnodes, hmup, hmids⟩ := hex
    have hmrep : m ∈ (c.nodes.filter (fun n => n.is_up)).filter
        (fun n => ids.contains n.id) := by
      rw [List.mem_filter, List.mem_filter]
      exact ⟨⟨hmnodes, hmup⟩, hmids⟩
    have hAperm := localityOrder_perm p.local_dc q.is_confirmed_lwt seed
      ((c.nodes.filter (fun n => n.is_up)).filter
        (fun n => ids.contains n.id))
    obtain ⟨a, ha⟩ : ∃ a, (localityOrder p.local_dc q.is_confirmed_lwt seed
        ((c.nodes.filter (fun n => n.is_up)).filter
          (fun n => ids.contains n.id))).head? = some a := by
      cases hA : localityOrder p.local_dc q.is_confirmed_lwt seed
          ((c.nodes.filter (fun n => n.is_up)).filter
            (fun n => ids.contains n.id)) with
      | nil =>
          rw [hA] at hAperm
          rw [← hAperm.nil_eq] at hmrep
          cases hmrep
      | cons x xs => exact ⟨x, rfl⟩
    have harep : a ∈ (c.nodes.filter (fun n => n.is_up)).filter
        (fun n => ids.contains n.id) :=
      hAperm.mem_iff.mp (head?_some_mem ha)
    refine ⟨a, ?_, (List.mem_filter.mp harep).2,
      (List.mem_filter.mp (List.mem_filter.mp harep).1).2⟩
    unfold DefaultPolicy.pick
    rw [queryPlan_eq_of_replicas p q c seed ids hids, List.head?_append, ha]
    rfl

/-- Witness for C4: on the sample snapshot the replica set of the sample
intent resolves and node 2 is an up replica, so pick returns an up replica. -/
theorem pick_replica_and_never_down_witness :
    routingReplicaIds exQuery exCluster = some [1, 2] ∧
    (∃ n, exPolicy.pick exQuery exCluster 0 = some n ∧
      ([1, 2] : List Nat).contains n.id = true ∧ n.is_up = true) :=
  ⟨rfl,
    (pick_replica_and_never_down exPolicy exQuery exCluster 0).2 [1, 2] rfl
      ⟨exNode2, by decide, rfl, rfl⟩⟩

/-- C5: when the snapshot's node ids are distinct, the fallback sequence
never contains the node returned by pick for the same intent, snapshot and
seed, and contains no node more than once. -/
theorem fallback_no_repeats (p : DefaultPolicy) (q : RoutingInfo)
    (c : ClusterData) (seed : Nat)
    (hnodup : (c.nodes.map Node.id).Nodup) :
    (∀ n, p.pick q c seed = some n → n ∉ p.fallback q c seed) ∧
    (p.fallback q c seed).Nodup := by
  have hnodes : c.nodes.Nodup := hnodup.of_map
  have hfilter : (c.nodes.filter (fun n => n.is_up)).Nodup := hnodes.filter _
  have hplan : (queryPlan p q c seed).Nodup :=
    (queryPlan_perm p q c seed).nodup_iff.mpr hfilter
  unfold DefaultPolicy.pick DefaultPolicy.fallback
  cases hq : queryPlan p q c seed with
  | nil => exact ⟨(fun n hn => nomatch hn), List.nodup_nil⟩
  | cons a t =>
      rw [hq] at hplan
      constructor
      · intro n hn
        simp only [List.head?_cons, Option.some.injEq] at hn
        simp only [List.tail_cons]
        rw [← hn]
        exact (List.nodup_cons.mp hplan).1
      · simp only [List.tail_cons]
        exact (List.nodup_cons.mp hplan).2

/-- Witness for C5: evaluated on the sample snapshot, whose node ids are
distinct. -/
theorem fallback_no_repeats_witness :
    (exCluster.nodes.map Node.id).Nodup ∧
    ((∀ n, exPolicy.pick exQuery exCluster 3 = some n →
        n ∉ exPolicy.fallback exQuery exCluster 3) ∧
      (exPolicy.fallback exQuery exCluster 3).Nodup) :=
  ⟨by decide, fallback_no_repeats exPolicy exQuery exCluster 3 (by decide)⟩

end Scylla
